import Mathlib

/-!
Verification development for the job-orchestration core of `spleeter-web`
(`src/api/tasks.py`).  The Python module is shallowly embedded: every task
function becomes a pure Lean function from an explicit environment (the
outcomes of the external separation / download operations, the readability of
local files) and an explicit state (the job records, a model filesystem) to
the resulting state.  External collaborators that are not part of the source
file (the Django models module, the Spleeter separator, the youtube-dl
wrapper, the huey retry wrapper) are modelled from the specification where
their behaviour matters.
-/

namespace SpleeterWeb

/-- Job status, as used by `tasks.py` (`TaskStatus.IN_PROGRESS`, `DONE`,
`ERROR`).  The models module is not part of the source tree; the fourth,
initial state is named `pending` after the specification. -/
inductive TaskStatus
  | pending
  | inProgress
  | done
  | error
deriving DecidableEq, Repr

/-- Model of `os.path.join` for the (relative, non-empty) path components the
module joins. -/
def osPathJoin (a b : String) : String := a ++ "/" ++ b

/-- Model filesystem: the set of existing regular files and the set of
existing (leaf) directories, each as a duplicate-free list of paths. -/
structure FS where
  files : List String
  dirs : List String
deriving DecidableEq, Repr

/-- Model of `os.path.exists` at the call sites of the module (always called
on regular-file paths). -/
def FS.existsPath (fs : FS) (p : String) : Bool := fs.files.contains p

/-- Creating a file at path `p` (what an external tool writing its output
does). -/
def FS.addFile (fs : FS) (p : String) : FS :=
  if fs.files.contains p then fs else { fs with files := p :: fs.files }

/-- Model of `os.remove`. -/
def FS.removeFile (fs : FS) (p : String) : FS :=
  { fs with files := fs.files.erase p }

/-- Model of `pathlib.Path(...).mkdir(parents=True, exist_ok=True)`. -/
def FS.mkdirP (fs : FS) (d : String) : FS :=
  if fs.dirs.contains d then fs else { fs with dirs := d :: fs.dirs }

/-- Model of `os.rmdir` (at its call sites the directory has just been
emptied). -/
def FS.rmdir (fs : FS) (d : String) : FS :=
  { fs with dirs := fs.dirs.erase d }

/-- The Django settings consumed by `tasks.py`. -/
structure Settings where
  MEDIA_ROOT : String
  SEPARATE_DIR : String
  UPLOAD_DIR : String
  STALE_TASK_MIN_THRESHOLD : Nat
  YOUTUBE_MAX_RETRIES : Nat
  DEFAULT_FILE_STORAGE : String
deriving Repr

/-- The storage class name compared against in
`settings.DEFAULT_FILE_STORAGE == 'django.core.files.storage.FileSystemStorage'`. -/
def localStorageClass : String := "django.core.files.storage.FileSystemStorage"

/-- Whether the active storage backend is the local filesystem. -/
def Settings.isLocal (s : Settings) : Bool := s.DEFAULT_FILE_STORAGE == localStorageClass

/-- The install hint printed (not recorded) by the `FileNotFoundError`
handlers of both separation tasks. -/
def installHint : String := "Please make sure you have FFmpeg and FFprobe installed."

/-- A static-mix job record (`StaticMix` model; the models module is not in
the source tree, the fields are those `tasks.py` reads and writes, plus the
creation timestamp used by the reaper).  `file` is the output reference
(`file.name` after the task assigns it). -/
structure StaticMix where
  id : Nat
  status : TaskStatus
  error : Option String
  date_created : Int
  formatted_name_slug : String
  source_path : String
  source_url : String
  file : Option String
deriving DecidableEq, Repr

/-- A dynamic-mix job record (`DynamicMix` model): four output references,
one per part. -/
structure DynamicMix where
  id : Nat
  status : TaskStatus
  error : Option String
  date_created : Int
  source_path : String
  source_url : String
  vocals_file : Option String
  other_file : Option String
  bass_file : Option String
  drums_file : Option String
deriving DecidableEq, Repr

/-- Outcome of one invocation of `SpleeterSeparator.create_static_mix`
(the separator module is not in the source tree).  Modelled from the spec:
the separation operation either returns having written the single requested
output file or not, or raises `ToolNotFound` (`FileNotFoundError` in Python)
or a generic `ToolFailure`; `msg` is `str(error)`. -/
inductive StaticSepOutcome
  | ok (wrote : Bool)
  | fnf (msg : String)
  | exc (msg : String)
deriving DecidableEq, Repr

/-- Outcome of one invocation of `SpleeterSeparator.separate_into_parts`
(the separator module is not in the source tree).  Modelled from the spec:
on success the tool writes some subset of the four canonical part files
`vocals.mp3`, `other.mp3`, `bass.mp3`, `drums.mp3` into the output
directory (the four booleans say which), or it raises `ToolNotFound`
(`FileNotFoundError`) or a generic `ToolFailure`. -/
inductive DynSepOutcome
  | ok (vocals other bass drums : Bool)
  | fnf (msg : String)
  | exc (msg : String)
deriving DecidableEq, Repr

/-- Environment of one `create_static_mix` run: settings, initial
filesystem, the separator outcome, and which local paths fail to be read
back (`open`/upload failure, `IOFailure` in the spec taxonomy; `some msg`
means reading the path raises with message `msg`). -/
structure StaticEnv where
  settings : Settings
  fs0 : FS
  sep : StaticSepOutcome
  readFail : String → Option String

/-- Environment of one `create_dynamic_mix` run. -/
structure DynamicEnv where
  settings : Settings
  fs0 : FS
  sep : DynSepOutcome
  readFail : String → Option String

/-- Result of one run of a separation task: the final (persisted) job
record, the final filesystem, and the lines printed to the console. -/
structure StaticRun where
  mix : StaticMix
  fs : FS
  log : List String
deriving Repr

/-- Result of one run of `create_dynamic_mix`. -/
structure DynamicRun where
  mix : DynamicMix
  fs : FS
  log : List String
deriving Repr

/-- Embedding of `create_static_mix` (tasks.py lines 33-100).  The record in
the result reflects the fields as last saved: every mutation in the Python
code is followed by `.save()` before the function returns or re-raises. -/
def create_static_mix (env : StaticEnv) (static_mix : StaticMix) : StaticRun :=
  let s := env.settings
  let m := { static_mix with status := TaskStatus.inProgress }
  let directory := osPathJoin (osPathJoin s.MEDIA_ROOT s.SEPARATE_DIR) (toString m.id)
  let filename := m.formatted_name_slug ++ ".mp3"
  let rel_media_path := osPathJoin (osPathJoin s.SEPARATE_DIR (toString m.id)) filename
  let rel_path := osPathJoin s.MEDIA_ROOT rel_media_path
  let rel_path_dir := osPathJoin (osPathJoin s.MEDIA_ROOT s.SEPARATE_DIR) (toString m.id)
  let fs := env.fs0.mkdirP directory
  match env.sep with
  | StaticSepOutcome.fnf msg =>
      { mix := { m with status := TaskStatus.error, error := some msg },
        fs := fs, log := [msg, installHint] }
  | StaticSepOutcome.exc msg =>
      { mix := { m with status := TaskStatus.error, error := some msg },
        fs := fs, log := [msg] }
  | StaticSepOutcome.ok wrote =>
      let fs := if wrote then fs.addFile rel_path else fs
      if fs.existsPath rel_path then
        if s.isLocal then
          { mix := { m with status := TaskStatus.done, file := some rel_media_path },
            fs := fs, log := [] }
        else
          match env.readFail rel_path with
          | some ioMsg =>
              { mix := { m with status := TaskStatus.error, error := some ioMsg },
                fs := fs, log := [ioMsg] }
          | none =>
              { mix := { m with status := TaskStatus.done, file := some filename },
                fs := (fs.removeFile rel_path).rmdir rel_path_dir, log := [] }
      else
        { mix := { m with status := TaskStatus.error, error := some "Error writing to file" },
          fs := fs, log := ["Error writing to file"] }

/-- The four part filenames iterated over by `save_to_ext_storage`
(tasks.py line 237). -/
def partFilenames : List String := ["vocals.mp3", "other.mp3", "bass.mp3", "drums.mp3"]

/-- Embedding of `exists_all_parts` (tasks.py lines 221-229). -/
def exists_all_parts (fs : FS) (rel_path : String) : Bool :=
  fs.existsPath (osPathJoin rel_path "vocals.mp3") &&
  fs.existsPath (osPathJoin rel_path "other.mp3") &&
  fs.existsPath (osPathJoin rel_path "bass.mp3") &&
  fs.existsPath (osPathJoin rel_path "drums.mp3")

/-- The `if/elif` chain of `save_to_ext_storage` assigning the content file
(whose `name` is the part filename) to the matching output field. -/
def assignPart (dynamic_mix : DynamicMix) (filename : String) : DynamicMix :=
  if filename == "vocals.mp3" then { dynamic_mix with vocals_file := some filename }
  else if filename == "other.mp3" then { dynamic_mix with other_file := some filename }
  else if filename == "bass.mp3" then { dynamic_mix with bass_file := some filename }
  else if filename == "drums.mp3" then { dynamic_mix with drums_file := some filename }
  else dynamic_mix

/-- The loop body of `save_to_ext_storage`: for each filename, open the
local file (raising with the partially-updated record and filesystem if it
cannot be read), assign the content file, and remove the local file. -/
def saveParts (readFail : String → Option String) (rel_path_dir : String) :
    List String → DynamicMix → FS → Except (String × DynamicMix × FS) (DynamicMix × FS)
  | [], m, fs => Except.ok (m, fs)
  | filename :: rest, m, fs =>
      let rel_path := osPathJoin rel_path_dir filename
      match readFail rel_path with
      | some msg => Except.error (msg, m, fs)
      | none =>
          saveParts readFail rel_path_dir rest (assignPart m filename) (fs.removeFile rel_path)

/-- Embedding of `save_to_ext_storage` (tasks.py lines 231-256): commit the
four parts in order, then remove the now-empty working directory.  An
`Except.error` result carries the raised message together with the state at
the moment of the raise (already-assigned fields stay assigned,
already-removed files stay removed), exactly as in Python. -/
def save_to_ext_storage (readFail : String → Option String) (dynamic_mix : DynamicMix)
    (fs : FS) (rel_path_dir : String) : Except (String × DynamicMix × FS) (DynamicMix × FS) :=
  match saveParts readFail rel_path_dir partFilenames dynamic_mix fs with
  | Except.ok (m, fs2) => Except.ok (m, fs2.rmdir rel_path_dir)
  | Except.error e => Except.error e

/-- Embedding of `create_dynamic_mix` (tasks.py lines 102-158).  Note that
the Python code sets `status = DONE` before calling `save_to_ext_storage`;
if a commit raises midway, the exception handler overwrites the status with
`ERROR` and saves, persisting the partially-assigned output fields. -/
def create_dynamic_mix (env : DynamicEnv) (dynamic_mix : DynamicMix) : DynamicRun :=
  let s := env.settings
  let m := { dynamic_mix with status := TaskStatus.inProgress }
  let directory := osPathJoin (osPathJoin s.MEDIA_ROOT s.SEPARATE_DIR) (toString m.id)
  let rel_media_path := osPathJoin s.SEPARATE_DIR (toString m.id)
  let rel_path := osPathJoin s.MEDIA_ROOT rel_media_path
  let fs := env.fs0.mkdirP directory
  match env.sep with
  | DynSepOutcome.fnf msg =>
      { mix := { m with status := TaskStatus.error, error := some msg },
        fs := fs, log := [msg, installHint] }
  | DynSepOutcome.exc msg =>
      { mix := { m with status := TaskStatus.error, error := some msg },
        fs := fs, log := [msg] }
  | DynSepOutcome.ok v o b d =>
      let fs := if v then fs.addFile (osPathJoin rel_path "vocals.mp3") else fs
      let fs := if o then fs.addFile (osPathJoin rel_path "other.mp3") else fs
      let fs := if b then fs.addFile (osPathJoin rel_path "bass.mp3") else fs
      let fs := if d then fs.addFile (osPathJoin rel_path "drums.mp3") else fs
      if exists_all_parts fs rel_path then
        if s.isLocal then
          { mix :=
              { m with
                status := TaskStatus.done
                vocals_file := some (osPathJoin rel_media_path "vocals.mp3")
                other_file := some (osPathJoin rel_media_path "other.mp3")
                bass_file := some (osPathJoin rel_media_path "bass.mp3")
                drums_file := some (osPathJoin rel_media_path "drums.mp3") }
            fs := fs, log := [] }
        else
          match save_to_ext_storage env.readFail { m with status := TaskStatus.done } fs rel_path with
          | Except.ok (m2, fs2) => { mix := m2, fs := fs2, log := [] }
          | Except.error (msg, m2, fs2) =>
              { mix := { m2 with status := TaskStatus.error, error := some msg },
                fs := fs2, log := [msg] }
      else
        { mix := { m with status := TaskStatus.error, error := some "Error writing to file" },
          fs := fs, log := ["Error writing to file"] }

/-- A source-file record (`SourceFile` model; models module not in the
source tree): the parent record owning the fetched audio's output
reference. -/
structure SourceFile where
  id : Nat
  file : Option String
deriving DecidableEq, Repr

/-- A fetch job record (`source_file.youtube_fetch_task`; models module not
in the source tree, fields are those `tasks.py` reads and writes plus the
creation timestamp the spec's reaper contract mentions). -/
structure YouTubeFetchTask where
  id : Nat
  status : TaskStatus
  error : Option String
  date_created : Int
deriving DecidableEq, Repr

/-- Outcome of one invocation of `download_audio(link, rel_path)` (the
youtubedl module is not in the source tree).  Modelled from the spec: the
download either returns having written the destination file or not, or
raises a `FetchFailure` with a message. -/
inductive FetchOutcome
  | ok (wrote : Bool)
  | exc (msg : String)
deriving DecidableEq, Repr

/-- Environment of a `fetch_youtube_audio` run: `slug` is
`slugify(artist + ' - ' + title, allow_unicode=True)` and `ext` is
`get_file_ext(link)` (both external helpers); `attempt i` is the outcome of
the i-th invocation of the download operation. -/
structure FetchEnv where
  settings : Settings
  slug : String
  ext : String
  attempt : Nat → FetchOutcome
  readFail : String → Option String

/-- The mutable state a fetch run acts on: the fetch-task record, its parent
source-file record, the filesystem, and the console log. -/
structure FetchState where
  fetch_task : YouTubeFetchTask
  source_file : SourceFile
  fs : FS
  log : List String
deriving Repr

/-- The directory `fetch_youtube_audio` creates (tasks.py lines 177-178,
184): keyed by the SOURCE FILE's id. -/
def fetch_created_dir (s : Settings) (source_file_id : Nat) : String :=
  osPathJoin (osPathJoin s.MEDIA_ROOT s.UPLOAD_DIR) (toString source_file_id)

/-- The media-relative download destination (tasks.py lines 181-182): keyed
by the FETCH TASK's id. -/
def fetch_rel_media_path (s : Settings) (fetch_task_id : Nat) (filename : String) : String :=
  osPathJoin (osPathJoin s.UPLOAD_DIR (toString fetch_task_id)) filename

/-- The directory component of the download destination. -/
def fetch_dest_dir (s : Settings) (fetch_task_id : Nat) : String :=
  osPathJoin (osPathJoin s.MEDIA_ROOT s.UPLOAD_DIR) (toString fetch_task_id)

/-- Embedding of one invocation of the `fetch_youtube_audio` task body
(tasks.py lines 160-219), i.e. one attempt.  `i` selects the attempt's
download outcome from the environment.  The boolean result is `true` when
the body re-raised the exception to its caller (tasks.py line 219); the
record states in the result are the persisted ones (every field change is
followed by `.save()` before return or re-raise). -/
def fetch_youtube_audio_once (env : FetchEnv) (st : FetchState) (i : Nat) : FetchState × Bool :=
  let s := env.settings
  let ft := { st.fetch_task with status := TaskStatus.inProgress }
  let directory := fetch_created_dir s st.source_file.id
  let filename := env.slug ++ env.ext
  let rel_media_path := fetch_rel_media_path s st.fetch_task.id filename
  let rel_path := osPathJoin s.MEDIA_ROOT rel_media_path
  let fs := st.fs.mkdirP directory
  match env.attempt i with
  | FetchOutcome.exc msg =>
      ({ st with
         fetch_task := { ft with status := TaskStatus.error, error := some msg }
         fs := fs
         log := st.log ++ [msg] }, true)
  | FetchOutcome.ok wrote =>
      let fs := if wrote then fs.addFile rel_path else fs
      if fs.existsPath rel_path then
        if s.isLocal then
          ({ st with
             fetch_task := { ft with status := TaskStatus.done }
             source_file := { st.source_file with file := some rel_media_path }
             fs := fs }, false)
        else
          match env.readFail rel_path with
          | some msg =>
              ({ st with
                 fetch_task := { ft with status := TaskStatus.error, error := some msg }
                 fs := fs
                 log := st.log ++ [msg] }, true)
          | none =>
              let rel_dir_path := fetch_created_dir s st.source_file.id
              ({ st with
                 fetch_task := { ft with status := TaskStatus.done }
                 source_file := { st.source_file with file := some filename }
                 fs := (fs.removeFile rel_path).rmdir rel_dir_path }, false)
      else
        ({ st with
           fetch_task :=
             { ft with status := TaskStatus.error, error := some "Error writing to file" }
           fs := fs
           log := st.log ++ ["Error writing to file"] }, true)

/-- Result of running the fetch task under the retry wrapper: final state,
number of invocations of the task body, whether the last attempt re-raised
(final failure visible to the queue), and the persisted state after each
attempt, in order. -/
structure RetryResult where
  state : FetchState
  invocations : Nat
  raised : Bool
  trace : List FetchState
deriving Repr

/-- Modelled from the spec: the bounded retry wrapper around the fetch task
(`@task(retries=settings.YOUTUBE_MAX_RETRIES)`; the wrapper itself lives in
the queue library, outside the source tree).  On an exception, if attempts
remain, the whole body is re-run from scratch; the first success stops; when
the last allowed attempt fails the failure propagates to the caller.  The
second `Nat` argument is the index of the next attempt, the third the number
of attempts still allowed. -/
def fetch_with_retries (env : FetchEnv) : FetchState → Nat → Nat → RetryResult
  | st, _, 0 => { state := st, invocations := 0, raised := false, trace := [] }
  | st, i, n + 1 =>
      let r := fetch_youtube_audio_once env st i
      if r.2 then
        match n with
        | 0 => { state := r.1, invocations := 1, raised := true, trace := [r.1] }
        | n' + 1 =>
            let rest := fetch_with_retries env r.1 (i + 1) (n' + 1)
            { state := rest.state
              invocations := rest.invocations + 1
              raised := rest.raised
              trace := r.1 :: rest.trace }
      else { state := r.1, invocations := 1, raised := false, trace := [r.1] }

/-- The fetch task as enqueued: the body run under the retry wrapper with
the configured attempt bound. -/
def fetch_youtube_audio (env : FetchEnv) (st : FetchState) : RetryResult :=
  fetch_with_retries env st 0 env.settings.YOUTUBE_MAX_RETRIES

/-- The job tables the periodic reaper sweeps over (the persistence layer is
external; the three job kinds are those of the data model). -/
structure DB where
  staticMixes : List StaticMix
  dynamicMixes : List DynamicMix
  fetchTasks : List YouTubeFetchTask
deriving Repr

/-- The `update` applied by `check_in_progress_tasks` to each static mix
matched by its filter (`status=IN_PROGRESS, date_created__lte=time_threshold`). -/
def reapStatic (time_threshold : Int) (m : StaticMix) : StaticMix :=
  if m.status = TaskStatus.inProgress ∧ m.date_created ≤ time_threshold then
    { m with status := TaskStatus.error, error := some "Operation timed out" }
  else m

/-- The `update` applied by `check_in_progress_tasks` to each dynamic mix
matched by its filter. -/
def reapDynamic (time_threshold : Int) (m : DynamicMix) : DynamicMix :=
  if m.status = TaskStatus.inProgress ∧ m.date_created ≤ time_threshold then
    { m with status := TaskStatus.error, error := some "Operation timed out" }
  else m

/-- Embedding of the periodic task `check_in_progress_tasks` (tasks.py lines
19-31): `now` is `timezone.now()` in minutes; the sweep rewrites the
`StaticMix` and `DynamicMix` tables and touches nothing else (in particular
it never queries the fetch-task table). -/
def check_in_progress_tasks (now : Int) (s : Settings) (db : DB) : DB :=
  let time_threshold := now - (s.STALE_TASK_MIN_THRESHOLD : Int)
  { db with
    staticMixes := db.staticMixes.map (reapStatic time_threshold)
    dynamicMixes := db.dynamicMixes.map (reapDynamic time_threshold) }

/-- Concrete settings with the local-filesystem backend, used by concrete
scenarios. -/
def cfgLocal : Settings :=
  { MEDIA_ROOT := "media"
    SEPARATE_DIR := "separate"
    UPLOAD_DIR := "uploads"
    STALE_TASK_MIN_THRESHOLD := 30
    YOUTUBE_MAX_RETRIES := 3
    DEFAULT_FILE_STORAGE := "django.core.files.storage.FileSystemStorage" }

/-- Concrete settings with a remote object-storage backend. -/
def cfgS3 : Settings :=
  { cfgLocal with DEFAULT_FILE_STORAGE := "storages.backends.s3boto3.S3Boto3Storage" }

/-- A freshly submitted dynamic-mix job: no error, no outputs. -/
def dmFresh : DynamicMix :=
  { id := 7
    status := TaskStatus.pending
    error := none
    date_created := 0
    source_path := "src.mp3"
    source_url := "http://host/src.mp3"
    vocals_file := none
    other_file := none
    bass_file := none
    drums_file := none }

/-- A freshly submitted static-mix job. -/
def smFresh : StaticMix :=
  { id := 4
    status := TaskStatus.pending
    error := none
    date_created := 0
    formatted_name_slug := "artist-title"
    source_path := "src.mp3"
    source_url := "http://host/src.mp3"
    file := none }

/-- A fetch run's initial state: fetch task id 2 attached to source file
id 1, fresh records, empty filesystem. -/
def fetchStart : FetchState :=
  { fetch_task := { id := 2, status := TaskStatus.pending, error := none, date_created := 0 }
    source_file := { id := 1, file := none }
    fs := { files := [], dirs := [] }
    log := [] }

/-- A static mix stuck in progress since minute 0. -/
def smStale : StaticMix := { smFresh with status := TaskStatus.inProgress }

/-- A fetch task stuck in progress since minute 0. -/
def ftStale : YouTubeFetchTask :=
  { id := 5, status := TaskStatus.inProgress, error := none, date_created := 0 }

/-- A job table holding one stale static mix and one stale fetch task. -/
def dbStale : DB := { staticMixes := [smStale], dynamicMixes := [], fetchTasks := [ftStale] }

/-- A static mix already in the terminal `done` state, with its output
reference set. -/
def smDone : StaticMix :=
  { smFresh with status := TaskStatus.done, file := some "separate/4/artist-title.mp3" }

/-- Static environment where the separator raises a generic exception. -/
def envStaticExc : StaticEnv :=
  { settings := cfgLocal
    fs0 := { files := [], dirs := [] }
    sep := StaticSepOutcome.exc "boom"
    readFail := fun _ => none }

/-- Static environment where the separator raises `FileNotFoundError` with
the same message as `envStaticExc`. -/
def envStaticFnf : StaticEnv :=
  { envStaticExc with sep := StaticSepOutcome.fnf "boom" }

/-- Static environment of a successful local-backend run. -/
def envStaticOkLocal : StaticEnv :=
  { settings := cfgLocal
    fs0 := { files := [], dirs := [] }
    sep := StaticSepOutcome.ok true
    readFail := fun _ => none }

/-- Dynamic environment of a remote-backend run in which all four parts are
produced but reading `bass.mp3` back for upload fails. -/
def envDynBassUnreadable : DynamicEnv :=
  { settings := cfgS3
    fs0 := { files := [], dirs := [] }
    sep := DynSepOutcome.ok true true true true
    readFail := fun p => if p == "media/separate/7/bass.mp3" then some "read failed" else none }

/-- Dynamic environment of a fully successful remote-backend run. -/
def envDynOkS3 : DynamicEnv :=
  { settings := cfgS3
    fs0 := { files := [], dirs := [] }
    sep := DynSepOutcome.ok true true true true
    readFail := fun _ => none }

/-- Dynamic environment where the separator produces only three of the four
part files (`drums.mp3` missing). -/
def envDynThreeParts : DynamicEnv :=
  { settings := cfgS3
    fs0 := { files := [], dirs := [] }
    sep := DynSepOutcome.ok true true true false
    readFail := fun _ => none }

/-- Fetch environment in which every download attempt raises. -/
def envFetchAllFail : FetchEnv :=
  { settings := cfgLocal
    slug := "artist-title"
    ext := ".mp3"
    attempt := fun _ => FetchOutcome.exc "FetchFailure"
    readFail := fun _ => none }

/-- Fetch environment in which the first two attempts raise and the third
succeeds (local backend). -/
def envFetchThirdOk : FetchEnv :=
  { settings := cfgLocal
    slug := "artist-title"
    ext := ".mp3"
    attempt := fun i => if i < 2 then FetchOutcome.exc "FetchFailure" else FetchOutcome.ok true
    readFail := fun _ => none }

/-- Fetch environment of a single successful local-backend download. -/
def envFetchOk : FetchEnv :=
  { settings := cfgLocal
    slug := "song"
    ext := ".mp3"
    attempt := fun _ => FetchOutcome.ok true
    readFail := fun _ => none }

end SpleeterWeb

namespace SpleeterWeb

/-! Helper lemmas about the filesystem model and path joining. -/

/-- Joining distinct final components onto the same directory gives distinct
paths. -/
theorem osPathJoin_right_inj {a b c : String} (h : osPathJoin a b = osPathJoin a c) : b = c := by
  have hd := congrArg String.data h
  simp only [osPathJoin, String.data_append] at hd
  exact String.ext (List.append_cancel_left hd)

/-- Boolean form of `osPathJoin_right_inj`. -/
theorem osPathJoin_beq_false {b c : String} (a : String) (h : b ≠ c) :
    (osPathJoin a b == osPathJoin a c) = false := by
  rw [beq_eq_false_iff_ne]
  exact fun hc => h (osPathJoin_right_inj hc)

/-- Propositional form of `osPathJoin_right_inj`. -/
theorem osPathJoin_ne {b c : String} (a : String) (h : b ≠ c) :
    osPathJoin a b ≠ osPathJoin a c :=
  fun hc => h (osPathJoin_right_inj hc)

/-- Path joining is associative (string concatenation with separators). -/
theorem osPathJoin_assoc (a b c : String) :
    osPathJoin (osPathJoin a b) c = osPathJoin a (osPathJoin b c) := by
  simp [osPathJoin, String.append_assoc]

/-- Equality of two joins onto the same directory reduces to equality of the
final components. -/
theorem osPathJoin_eq_iff (a : String) {b c : String} :
    osPathJoin a b = osPathJoin a c ↔ b = c :=
  ⟨osPathJoin_right_inj, fun h => h ▸ rfl⟩

/-- Boolean counterpart of `osPathJoin_eq_iff`. -/
theorem osPathJoin_beq (a b c : String) :
    (osPathJoin a b == osPathJoin a c) = (b == c) := by
  by_cases h : b = c
  · subst h
    simp
  · simp [h, osPathJoin_beq_false a h]

/-- `existsPath` after writing a file. -/
theorem FS.existsPath_addFile (fs : FS) (p q : String) :
    (fs.addFile q).existsPath p = (p == q || fs.existsPath p) := by
  unfold FS.addFile FS.existsPath
  by_cases hq : q ∈ fs.files <;> by_cases hpq : p = q
  · subst hpq
    simp [hq]
  · simp [hq, hpq]
  · subst hpq
    simp [hq]
  · simp [hq, hpq, List.mem_cons]

/-- `mkdir` does not change the set of files. -/
theorem FS.files_mkdirP (fs : FS) (d : String) : (fs.mkdirP d).files = fs.files := by
  unfold FS.mkdirP
  split <;> rfl

/-- `mkdir` does not affect file existence. -/
theorem FS.existsPath_mkdirP (fs : FS) (d p : String) :
    (fs.mkdirP d).existsPath p = fs.existsPath p := by
  simp [FS.existsPath, FS.files_mkdirP]

/-- No file exists on a file-free filesystem. -/
theorem FS.existsPath_of_files_nil (fs : FS) (h : fs.files = []) (p : String) :
    fs.existsPath p = false := by
  simp [FS.existsPath, h]

/-- `assignPart` never changes the status or the error field. -/
theorem assignPart_status_error (m : DynamicMix) (f : String) :
    (assignPart m f).status = m.status ∧ (assignPart m f).error = m.error := by
  unfold assignPart
  repeat' split
  all_goals exact ⟨rfl, rfl⟩

/-- When the commit loop of `save_to_ext_storage` finishes without raising,
all four output fields are assigned and status and error are untouched. -/
theorem saveParts_ok_fields {rf : String → Option String} {rp : String} {m m2 : DynamicMix}
    {fs fs2 : FS} (h : saveParts rf rp partFilenames m fs = Except.ok (m2, fs2)) :
    m2.vocals_file = some "vocals.mp3" ∧ m2.other_file = some "other.mp3" ∧
    m2.bass_file = some "bass.mp3" ∧ m2.drums_file = some "drums.mp3" ∧
    m2.status = m.status ∧ m2.error = m.error := by
  simp only [partFilenames, saveParts] at h
  cases h1 : rf (osPathJoin rp "vocals.mp3") <;> rw [h1] at h
  case some => exact absurd h (by simp)
  cases h2 : rf (osPathJoin rp "other.mp3") <;> rw [h2] at h
  case some => exact absurd h (by simp)
  cases h3 : rf (osPathJoin rp "bass.mp3") <;> rw [h3] at h
  case some => exact absurd h (by simp)
  cases h4 : rf (osPathJoin rp "drums.mp3") <;> rw [h4] at h
  case some => exact absurd h (by simp)
  have hm : m2 = assignPart (assignPart (assignPart (assignPart m "vocals.mp3") "other.mp3")
      "bass.mp3") "drums.mp3" := by
    have := h
    simp only [Except.ok.injEq, Prod.mk.injEq] at this
    exact this.1.symm
  subst hm
  simp [assignPart]

/-- Same statement lifted through `save_to_ext_storage`. -/
theorem save_to_ext_storage_ok_fields {rf : String → Option String} {rp : String}
    {m m2 : DynamicMix} {fs fs2 : FS}
    (h : save_to_ext_storage rf m fs rp = Except.ok (m2, fs2)) :
    m2.vocals_file = some "vocals.mp3" ∧ m2.other_file = some "other.mp3" ∧
    m2.bass_file = some "bass.mp3" ∧ m2.drums_file = some "drums.mp3" ∧
    m2.status = m.status ∧ m2.error = m.error := by
  unfold save_to_ext_storage at h
  cases hsp : saveParts rf rp partFilenames m fs <;> rw [hsp] at h
  case error => exact absurd h (by simp)
  case ok a =>
    obtain ⟨m', fs'⟩ := a
    have := saveParts_ok_fields hsp
    simp only [Except.ok.injEq, Prod.mk.injEq] at h
    obtain ⟨hm, -⟩ := h
    rw [← hm]
    exact this

/-- With an initially file-free working area, the part-existence check after
the separator wrote its subset of part files succeeds exactly when all four
were produced. -/
theorem exists_all_parts_writes (fs : FS) (hfs : fs.files = []) (rel_path : String)
    (v o b d : Bool) :
    exists_all_parts
      (let f1 := if v then fs.addFile (osPathJoin rel_path "vocals.mp3") else fs
       let f2 := if o then f1.addFile (osPathJoin rel_path "other.mp3") else f1
       let f3 := if b then f2.addFile (osPathJoin rel_path "bass.mp3") else f2
       if d then f3.addFile (osPathJoin rel_path "drums.mp3") else f3) rel_path
      = (v && o && b && d) := by
  have hvo := osPathJoin_beq_false rel_path (show "vocals.mp3" ≠ "other.mp3" by decide)
  have hvb := osPathJoin_beq_false rel_path (show "vocals.mp3" ≠ "bass.mp3" by decide)
  have hvd := osPathJoin_beq_false rel_path (show "vocals.mp3" ≠ "drums.mp3" by decide)
  have hov := osPathJoin_beq_false rel_path (show "other.mp3" ≠ "vocals.mp3" by decide)
  have hob := osPathJoin_beq_false rel_path (show "other.mp3" ≠ "bass.mp3" by decide)
  have hod := osPathJoin_beq_false rel_path (show "other.mp3" ≠ "drums.mp3" by decide)
  have hbv := osPathJoin_beq_false rel_path (show "bass.mp3" ≠ "vocals.mp3" by decide)
  have hbo := osPathJoin_beq_false rel_path (show "bass.mp3" ≠ "other.mp3" by decide)
  have hbd := osPathJoin_beq_false rel_path (show "bass.mp3" ≠ "drums.mp3" by decide)
  have hdv := osPathJoin_beq_false rel_path (show "drums.mp3" ≠ "vocals.mp3" by decide)
  have hdb := osPathJoin_beq_false rel_path (show "drums.mp3" ≠ "bass.mp3" by decide)
  have hdo := osPathJoin_beq_false rel_path (show "drums.mp3" ≠ "other.mp3" by decide)
  have base : ∀ p, fs.existsPath p = false := by
    intro p
    simp [FS.existsPath, hfs]
  rcases v <;> rcases o <;> rcases b <;> rcases d <;>
    simp [exists_all_parts, FS.existsPath_addFile, base, hvo, hvb, hvd, hov, hob, hod,
      hbv, hbo, hbd, hdv, hdb, hdo]

/-- Branch characterization of `create_static_mix`: every run ends in `done`
with the output reference set and the error field untouched, or in `error`
with a recorded message and the output reference untouched. -/
theorem create_static_mix_outcome (env : StaticEnv) (m : StaticMix) :
    ((create_static_mix env m).mix.status = TaskStatus.done ∧
     (create_static_mix env m).mix.file.isSome ∧
     (create_static_mix env m).mix.error = m.error) ∨
    ((create_static_mix env m).mix.status = TaskStatus.error ∧
     (create_static_mix env m).mix.error.isSome ∧
     (create_static_mix env m).mix.file = m.file) := by
  cases hsep : env.sep
  case fnf msg => simp [create_static_mix, hsep]
  case exc msg => simp [create_static_mix, hsep]
  case ok wrote =>
    simp only [create_static_mix, hsep]
    repeat' split
    all_goals simp

/-- Branch characterization of `create_dynamic_mix`: every run ends in
`done` with all four output references set and the error field untouched, or
in `error` with a recorded message.  (No claim is made about output fields
in the `error` case: a failing remote commit leaves partial assignments.) -/
theorem create_dynamic_mix_outcome (env : DynamicEnv) (m : DynamicMix) :
    ((create_dynamic_mix env m).mix.status = TaskStatus.done ∧
     (create_dynamic_mix env m).mix.vocals_file.isSome ∧
     (create_dynamic_mix env m).mix.other_file.isSome ∧
     (create_dynamic_mix env m).mix.bass_file.isSome ∧
     (create_dynamic_mix env m).mix.drums_file.isSome ∧
     (create_dynamic_mix env m).mix.error = m.error) ∨
    ((create_dynamic_mix env m).mix.status = TaskStatus.error ∧
     (create_dynamic_mix env m).mix.error.isSome) := by
  cases hsep : env.sep
  case fnf msg => simp [create_dynamic_mix, hsep]
  case exc msg => simp [create_dynamic_mix, hsep]
  case ok v o b d =>
    simp only [create_dynamic_mix, hsep]
    repeat' split
    all_goals solve
      | simp
      | (rename_i heq
         rcases save_to_ext_storage_ok_fields heq with ⟨h1, h2, h3, h4, h5, h6⟩
         simp [h1, h2, h3, h4, h5, h6])

end SpleeterWeb

namespace SpleeterWeb

/-- C1 (counterexample): a fetch job stuck InProgress since minute 0 is
stale at minute 100 under a 30-minute threshold, yet one run of the reaper
sweep leaves it entirely unchanged (still InProgress), contradicting the
claim that stale InProgress jobs of every kind, fetch included, are set to
Error. -/
theorem reaper_skips_stale_fetch_job :
    ftStale.status = TaskStatus.inProgress ∧
    ftStale.date_created ≤ 100 - (cfgLocal.STALE_TASK_MIN_THRESHOLD : Int) ∧
    (check_in_progress_tasks 100 cfgLocal dbStale).fetchTasks = [ftStale] ∧
    TaskStatus.inProgress ≠ TaskStatus.error := by
  refine ⟨rfl, by decide, rfl, by decide⟩

/-- C1 (amended): one run of the reaper sweep sets every static-mix and
dynamic-mix job whose status is InProgress and whose creation timestamp is
at most now minus the staleness threshold to Error with the fixed message
"Operation timed out", leaves every other static/dynamic job unchanged, and
leaves fetch jobs untouched whatever their status or age. -/
theorem stale_sweep_behavior (now : Int) (s : Settings) (db : DB) (i : Nat) :
    (check_in_progress_tasks now s db).fetchTasks = db.fetchTasks ∧
    (∀ m, db.staticMixes.get? i = some m →
      (check_in_progress_tasks now s db).staticMixes.get? i =
        some (if m.status = TaskStatus.inProgress ∧
                 m.date_created ≤ now - (s.STALE_TASK_MIN_THRESHOLD : Int)
              then { m with status := TaskStatus.error, error := some "Operation timed out" }
              else m)) ∧
    (∀ m, db.dynamicMixes.get? i = some m →
      (check_in_progress_tasks now s db).dynamicMixes.get? i =
        some (if m.status = TaskStatus.inProgress ∧
                 m.date_created ≤ now - (s.STALE_TASK_MIN_THRESHOLD : Int)
              then { m with status := TaskStatus.error, error := some "Operation timed out" }
              else m)) := by
  refine ⟨rfl, ?_, ?_⟩
  · intro m hm
    rw [List.get?_eq_getElem?] at hm
    simp [check_in_progress_tasks, List.get?_eq_getElem?, List.getElem?_map, hm, reapStatic]
  · intro m hm
    rw [List.get?_eq_getElem?] at hm
    simp [check_in_progress_tasks, List.get?_eq_getElem?, List.getElem?_map, hm, reapDynamic]

/-- C1 (witness): the amended theorem applied to a concrete table with one
stale static mix: the sweep force-fails it with the fixed message. -/
theorem stale_sweep_behavior_witness :
    (check_in_progress_tasks 100 cfgLocal dbStale).staticMixes.get? 0 =
      some { smStale with status := TaskStatus.error, error := some "Operation timed out" } := by
  have h := (stale_sweep_behavior 100 cfgLocal dbStale 0).2.1 smStale rfl
  rw [if_pos ⟨rfl, by decide⟩] at h
  exact h

/-- C2 (counterexample): invoking the static-mix runner on a job already in
the terminal Done state silently succeeds and transitions it out of Done
(here: to Error, after the separator fails), contradicting the claim that no
operation transitions a job out of Done and that a transition on a terminal
job must not silently succeed. -/
theorem terminal_job_silently_reprocessed :
    smDone.status = TaskStatus.done ∧
    (create_static_mix envStaticExc smDone).mix.status = TaskStatus.error :=
  ⟨rfl, rfl⟩

/-- C2 (amended): the runners enforce no status guard: `create_static_mix`
and `create_dynamic_mix` mark the job InProgress unconditionally from any
starting status (terminal states included) and always finish in Done or
Error, so invoking a runner on a terminal job silently re-processes and
overwrites it; the intended Pending → InProgress → {Done, Error} order holds
on the normal path but is not enforced anywhere. -/
theorem runner_transitions_unguarded (envS : StaticEnv) (ms : StaticMix)
    (envD : DynamicEnv) (md : DynamicMix) :
    ((create_static_mix envS ms).mix.status = TaskStatus.done ∨
     (create_static_mix envS ms).mix.status = TaskStatus.error) ∧
    ((create_dynamic_mix envD md).mix.status = TaskStatus.done ∨
     (create_dynamic_mix envD md).mix.status = TaskStatus.error) := by
  constructor
  · rcases create_static_mix_outcome envS ms with h | h
    · exact Or.inl h.1
    · exact Or.inr h.1
  · rcases create_dynamic_mix_outcome envD md with h | h
    · exact Or.inl h.1
    · exact Or.inr h.1

/-- C3 (counterexample): under the remote backend, when all four parts are
produced but reading `bass.mp3` back for upload fails, the job ends in
status Error while the already-committed partial outputs (vocals, other)
remain attached to the record — contradicting the claim that a job ending in
Error has no output reference set even when a storage commit fails after
some outputs were committed. -/
theorem error_job_keeps_partial_outputs :
    (create_dynamic_mix envDynBassUnreadable dmFresh).mix.status = TaskStatus.error ∧
    (create_dynamic_mix envDynBassUnreadable dmFresh).mix.error = some "read failed" ∧
    (create_dynamic_mix envDynBassUnreadable dmFresh).mix.vocals_file = some "vocals.mp3" ∧
    (create_dynamic_mix envDynBassUnreadable dmFresh).mix.other_file = some "other.mp3" :=
  ⟨rfl, rfl, rfl, rfl⟩

/-- C3 (amended): for freshly submitted jobs (no recorded error, no attached
outputs): a static-mix run ends Done iff its output reference is set, and
ends Error iff an error message is recorded; a dynamic-mix run that ends
Done has all four output references set and no error recorded, and ends
Error iff an error message is recorded.  The claim's further guarantee that
an Error job never has outputs attached fails for dynamic mixes: when a
remote commit fails after some parts were committed, the already-assigned
partial references remain on the Error record. -/
theorem outputs_and_error_vs_status (envS : StaticEnv) (ms : StaticMix)
    (envD : DynamicEnv) (md : DynamicMix)
    (hs1 : ms.error = none) (hs2 : ms.file = none) (hd1 : md.error = none) :
    ((create_static_mix envS ms).mix.status = TaskStatus.done ↔
      (create_static_mix envS ms).mix.file.isSome) ∧
    ((create_static_mix envS ms).mix.status = TaskStatus.error ↔
      (create_static_mix envS ms).mix.error.isSome) ∧
    ((create_dynamic_mix envD md).mix.status = TaskStatus.done →
      (create_dynamic_mix envD md).mix.vocals_file.isSome ∧
      (create_dynamic_mix envD md).mix.other_file.isSome ∧
      (create_dynamic_mix envD md).mix.bass_file.isSome ∧
      (create_dynamic_mix envD md).mix.drums_file.isSome ∧
      (create_dynamic_mix envD md).mix.error = none) ∧
    ((create_dynamic_mix envD md).mix.status = TaskStatus.error ↔
      (create_dynamic_mix envD md).mix.error.isSome) := by
  refine ⟨?_, ?_, ?_, ?_⟩
  · rcases create_static_mix_outcome envS ms with ⟨h1, h2, h3⟩ | ⟨h1, h2, h3⟩
    · simp [h1, h2]
    · rw [h1, h3, hs2]
      simp
  · rcases create_static_mix_outcome envS ms with ⟨h1, h2, h3⟩ | ⟨h1, h2, h3⟩
    · rw [h1, h3, hs1]
      simp
    · simp [h1, h2]
  · intro hdone
    rcases create_dynamic_mix_outcome envD md with ⟨h1, h2, h3, h4, h5, h6⟩ | ⟨h1, h2⟩
    · exact ⟨h2, h3, h4, h5, h6.trans hd1⟩
    · rw [h1] at hdone
      exact absurd hdone (by decide)
  · rcases create_dynamic_mix_outcome envD md with ⟨h1, h2, h3, h4, h5, h6⟩ | ⟨h1, h2⟩
    · rw [h1, h6, hd1]
      simp
    · simp [h1, h2]

/-- C3 (witness): the amended theorem applied to concrete fresh jobs. -/
theorem outputs_and_error_vs_status_witness :
    (create_static_mix envStaticOkLocal smFresh).mix.status = TaskStatus.done ↔
      (create_static_mix envStaticOkLocal smFresh).mix.file.isSome :=
  (outputs_and_error_vs_status envStaticOkLocal smFresh envDynOkS3 dmFresh rfl rfl rfl).1

/-- C4: when the separation operation produces only a strict subset of the
four expected part files in a fresh working area, the dynamic-mix job ends
in Error with the message "Error writing to file" and none of the produced
partial outputs are attached to the record; and in general a dynamic-mix run
reaches Done only with all four output references committed. -/
theorem partial_parts_leave_no_outputs (env : DynamicEnv) (m : DynamicMix)
    (v o b d : Bool)
    (hsep : env.sep = DynSepOutcome.ok v o b d)
    (hmiss : ¬(v = true ∧ o = true ∧ b = true ∧ d = true))
    (hfs : env.fs0.files = []) :
    (create_dynamic_mix env m).mix.status = TaskStatus.error ∧
    (create_dynamic_mix env m).mix.error = some "Error writing to file" ∧
    (create_dynamic_mix env m).mix.vocals_file = m.vocals_file ∧
    (create_dynamic_mix env m).mix.other_file = m.other_file ∧
    (create_dynamic_mix env m).mix.bass_file = m.bass_file ∧
    (create_dynamic_mix env m).mix.drums_file = m.drums_file ∧
    (∀ env2 m2, (create_dynamic_mix env2 m2).mix.status = TaskStatus.done →
      (create_dynamic_mix env2 m2).mix.vocals_file.isSome ∧
      (create_dynamic_mix env2 m2).mix.other_file.isSome ∧
      (create_dynamic_mix env2 m2).mix.bass_file.isSome ∧
      (create_dynamic_mix env2 m2).mix.drums_file.isSome) := by
  have hfour : ∀ env2 m2, (create_dynamic_mix env2 m2).mix.status = TaskStatus.done →
      (create_dynamic_mix env2 m2).mix.vocals_file.isSome ∧
      (create_dynamic_mix env2 m2).mix.other_file.isSome ∧
      (create_dynamic_mix env2 m2).mix.bass_file.isSome ∧
      (create_dynamic_mix env2 m2).mix.drums_file.isSome := by
    intro env2 m2 hdone
    rcases create_dynamic_mix_outcome env2 m2 with h | h
    · exact ⟨h.2.1, h.2.2.1, h.2.2.2.1, h.2.2.2.2.1⟩
    · rw [h.1] at hdone
      exact absurd hdone (by decide)
  have hbase := FS.existsPath_of_files_nil env.fs0 hfs
  have hmain : (create_dynamic_mix env m).mix.status = TaskStatus.error ∧
      (create_dynamic_mix env m).mix.error = some "Error writing to file" ∧
      (create_dynamic_mix env m).mix.vocals_file = m.vocals_file ∧
      (create_dynamic_mix env m).mix.other_file = m.other_file ∧
      (create_dynamic_mix env m).mix.bass_file = m.bass_file ∧
      (create_dynamic_mix env m).mix.drums_file = m.drums_file := by
    rcases v <;> rcases o <;> rcases b <;> rcases d
    case true.true.true.true => exact absurd ⟨rfl, rfl, rfl, rfl⟩ hmiss
    all_goals
      simp [create_dynamic_mix, hsep, exists_all_parts, FS.existsPath_addFile,
        FS.existsPath_mkdirP, hbase, osPathJoin_beq_false]
  exact ⟨hmain.1, hmain.2.1, hmain.2.2.1, hmain.2.2.2.1, hmain.2.2.2.2.1,
    hmain.2.2.2.2.2, hfour⟩

/-- C4 (witness): the theorem applied to a run producing three of the four
parts (drums missing). -/
theorem partial_parts_leave_no_outputs_witness :
    (create_dynamic_mix envDynThreeParts dmFresh).mix.status = TaskStatus.error ∧
    (create_dynamic_mix envDynThreeParts dmFresh).mix.vocals_file = dmFresh.vocals_file :=
  ⟨(partial_parts_leave_no_outputs envDynThreeParts dmFresh true true true false rfl
      (by decide) rfl).1,
   (partial_parts_leave_no_outputs envDynThreeParts dmFresh true true true false rfl
      (by decide) rfl).2.2.1⟩

end SpleeterWeb

namespace SpleeterWeb

/-- C5 (counterexample): when the separator raises `FileNotFoundError` with
message "boom", the recorded job error is exactly "boom" — identical to what
a generic tool failure with the same message records, and containing no
install hint — contradicting the claim that the recorded message includes an
install hint and is distinct from the generic-failure message. -/
theorem tool_missing_message_not_distinct :
    (create_static_mix envStaticFnf smFresh).mix.error = some "boom" ∧
    (create_static_mix envStaticExc smFresh).mix.error = some "boom" ∧
    (create_static_mix envStaticFnf smFresh).mix.error =
      (create_static_mix envStaticExc smFresh).mix.error ∧
    "boom" ≠ installHint :=
  ⟨rfl, rfl, rfl, by decide⟩

/-- C5 (amended): a missing-binary failure (`FileNotFoundError`) ends the
job in Error with the raw exception text recorded — the same recording a
generic tool failure gets — while the user-actionable install hint is only
printed to the console log of the run, in both separation runners. -/
theorem tool_missing_hint_only_logged (env : StaticEnv) (m : StaticMix) (msg : String)
    (h : env.sep = StaticSepOutcome.fnf msg) :
    (create_static_mix env m).mix.status = TaskStatus.error ∧
    (create_static_mix env m).mix.error = some msg ∧
    (create_static_mix env m).log = [msg, installHint] ∧
    (∀ env2 m2, env2.sep = StaticSepOutcome.exc msg →
      (create_static_mix env2 m2).mix.error = (create_static_mix env m).mix.error ∧
      (create_static_mix env2 m2).log = [msg]) ∧
    (∀ envD mD, envD.sep = DynSepOutcome.fnf msg →
      (create_dynamic_mix envD mD).mix.status = TaskStatus.error ∧
      (create_dynamic_mix envD mD).mix.error = some msg ∧
      (create_dynamic_mix envD mD).log = [msg, installHint]) := by
  refine ⟨?_, ?_, ?_, ?_, ?_⟩
  · simp [create_static_mix, h]
  · simp [create_static_mix, h]
  · simp [create_static_mix, h]
  · intro env2 m2 h2
    constructor
    · simp [create_static_mix, h, h2]
    · simp [create_static_mix, h2]
  · intro envD mD hD
    refine ⟨?_, ?_, ?_⟩ <;> simp [create_dynamic_mix, hD]

/-- C5 (witness): the amended theorem applied to the concrete
`FileNotFoundError` environment. -/
theorem tool_missing_hint_only_logged_witness :
    (create_static_mix envStaticFnf smFresh).log = ["boom", installHint] :=
  (tool_missing_hint_only_logged envStaticFnf smFresh "boom" rfl).2.2.1

end SpleeterWeb

namespace SpleeterWeb

/-- C6: under a remote storage backend, when the separator produces all four
part files in a fresh working area and every part can be read back, the
dynamic-mix run ends Done with all four parts committed as the job's outputs
(content files named `vocals.mp3` .. `drums.mp3`), every local copy removed
from the working directory, and the working directory itself removed. -/
theorem remote_materialization_uploads_and_cleans (env : DynamicEnv) (m : DynamicMix)
    (hsep : env.sep = DynSepOutcome.ok true true true true)
    (hloc : env.settings.isLocal = false)
    (hrf : env.readFail = fun _ => none)
    (hfs : env.fs0 = { files := [], dirs := [] }) :
    (create_dynamic_mix env m).mix.status = TaskStatus.done ∧
    (create_dynamic_mix env m).mix.vocals_file = some "vocals.mp3" ∧
    (create_dynamic_mix env m).mix.other_file = some "other.mp3" ∧
    (create_dynamic_mix env m).mix.bass_file = some "bass.mp3" ∧
    (create_dynamic_mix env m).mix.drums_file = some "drums.mp3" ∧
    (create_dynamic_mix env m).fs.files = [] ∧
    (create_dynamic_mix env m).fs.dirs = [] := by
  simp only [create_dynamic_mix, hsep, hloc, hrf, hfs, if_true]
  simp [exists_all_parts, FS.existsPath_addFile, FS.existsPath, FS.addFile, FS.mkdirP,
    FS.removeFile, FS.rmdir, save_to_ext_storage, saveParts, partFilenames, assignPart,
    osPathJoin_eq_iff, osPathJoin_beq, osPathJoin_assoc, List.erase_cons]

end SpleeterWeb

namespace SpleeterWeb

/-- C6 (witness): the theorem applied to the concrete remote-backend
environment `envDynOkS3`. -/
theorem remote_materialization_uploads_and_cleans_witness :
    (create_dynamic_mix envDynOkS3 dmFresh).mix.status = TaskStatus.done ∧
    (create_dynamic_mix envDynOkS3 dmFresh).fs.files = [] ∧
    (create_dynamic_mix envDynOkS3 dmFresh).fs.dirs = [] := by
  have h := remote_materialization_uploads_and_cleans envDynOkS3 dmFresh rfl rfl rfl rfl
  exact ⟨h.1, h.2.2.2.2.2.1, h.2.2.2.2.2.2⟩

end SpleeterWeb

namespace SpleeterWeb

/-- A failing download attempt: the body records Error with the attempt's
message on the fetch task, appends the message to the log, and re-raises. -/
theorem fetch_once_exc (env : FetchEnv) (st : FetchState) (i : Nat) (msg : String)
    (h : env.attempt i = FetchOutcome.exc msg) :
    fetch_youtube_audio_once env st i =
      ({ st with
         fetch_task := { st.fetch_task with status := TaskStatus.error, error := some msg }
         fs := st.fs.mkdirP (fetch_created_dir env.settings st.source_file.id)
         log := st.log ++ [msg] }, true) := by
  simp [fetch_youtube_audio_once, h]

/-- A successful download attempt under the local backend: the body does not
re-raise, marks the fetch task Done, and sets the source file's output
reference to the media-relative destination path. -/
theorem fetch_once_ok_local (env : FetchEnv) (st : FetchState) (i : Nat)
    (h : env.attempt i = FetchOutcome.ok true) (hloc : env.settings.isLocal = true) :
    (fetch_youtube_audio_once env st i).2 = false ∧
    (fetch_youtube_audio_once env st i).1.fetch_task.status = TaskStatus.done ∧
    (fetch_youtube_audio_once env st i).1.source_file.file =
      some (fetch_rel_media_path env.settings st.fetch_task.id (env.slug ++ env.ext)) := by
  simp [fetch_youtube_audio_once, h, hloc, FS.existsPath_addFile]

/-- One failing attempt with at least one retry remaining: the wrapper
re-runs the body from the persisted post-failure state with the next attempt
index and one fewer allowed attempt. -/
theorem fetch_with_retries_fail_step (env : FetchEnv) (st : FetchState) (i n : Nat)
    (msg : String) (h : env.attempt i = FetchOutcome.exc msg) :
    fetch_with_retries env st i (n + 2) =
      { state := (fetch_with_retries env (fetch_youtube_audio_once env st i).1 (i + 1) (n + 1)).state
        invocations :=
          (fetch_with_retries env (fetch_youtube_audio_once env st i).1 (i + 1) (n + 1)).invocations + 1
        raised := (fetch_with_retries env (fetch_youtube_audio_once env st i).1 (i + 1) (n + 1)).raised
        trace := (fetch_youtube_audio_once env st i).1 ::
          (fetch_with_retries env (fetch_youtube_audio_once env st i).1 (i + 1) (n + 1)).trace } := by
  have hr : (fetch_youtube_audio_once env st i).2 = true := by
    rw [fetch_once_exc env st i msg h]
  rw [fetch_with_retries.eq_def]
  simp [hr]

/-- A successful attempt stops the wrapper: one invocation, no re-raise. -/
theorem fetch_with_retries_done_step (env : FetchEnv) (st : FetchState) (i n : Nat)
    (h : env.attempt i = FetchOutcome.ok true) (hloc : env.settings.isLocal = true) :
    (fetch_with_retries env st i (n + 1)).invocations = 1 ∧
    (fetch_with_retries env st i (n + 1)).raised = false ∧
    (fetch_with_retries env st i (n + 1)).state = (fetch_youtube_audio_once env st i).1 := by
  have hr : (fetch_youtube_audio_once env st i).2 = false := (fetch_once_ok_local env st i h hloc).1
  rw [fetch_with_retries.eq_def]
  simp [hr]

/-- The final allowed attempt failing: the wrapper stops, reporting the
re-raise. -/
theorem fetch_with_retries_last_fail (env : FetchEnv) (st : FetchState) (i : Nat)
    (msg : String) (h : env.attempt i = FetchOutcome.exc msg) :
    fetch_with_retries env st i 1 =
      { state := (fetch_youtube_audio_once env st i).1
        invocations := 1
        raised := true
        trace := [(fetch_youtube_audio_once env st i).1] } := by
  have hr : (fetch_youtube_audio_once env st i).2 = true := by
    rw [fetch_once_exc env st i msg h]
  rw [fetch_with_retries.eq_def]
  simp [hr]

end SpleeterWeb

namespace SpleeterWeb

/-- C7: when every download attempt fails, the retry-wrapped fetch run both
records status Error with the final attempt's failure message on the fetch
job and re-raises the failure to its caller (`raised = true`), rather than
swallowing it. -/
theorem fetch_final_failure_recorded_and_reraised (env : FetchEnv) (st : FetchState)
    (i0 n : Nat) (msgs : Nat → String)
    (h : ∀ j, env.attempt j = FetchOutcome.exc (msgs j)) (hn : 1 ≤ n) :
    (fetch_with_retries env st i0 n).raised = true ∧
    (fetch_with_retries env st i0 n).state.fetch_task.status = TaskStatus.error ∧
    (fetch_with_retries env st i0 n).state.fetch_task.error = some (msgs (i0 + n - 1)) := by
  induction n generalizing st i0 with
  | zero => exact absurd hn (by decide)
  | succ k ih =>
    cases k with
    | zero =>
      rw [fetch_with_retries_last_fail env st i0 (msgs i0) (h i0)]
      rw [fetch_once_exc env st i0 (msgs i0) (h i0)]
      exact ⟨rfl, rfl, rfl⟩
    | succ k2 =>
      rw [show k2 + 1 + 1 = k2 + 2 from rfl,
        fetch_with_retries_fail_step env st i0 k2 (msgs i0) (h i0)]
      have hrec := ih (fetch_youtube_audio_once env st i0).1 (i0 + 1) (by omega)
      have hidx : i0 + 1 + (k2 + 1) - 1 = i0 + (k2 + 1 + 1) - 1 := by omega
      rw [hidx] at hrec
      exact hrec

/-- C7 (witness): the theorem applied to the all-failures environment with
three allowed attempts. -/
theorem fetch_final_failure_recorded_and_reraised_witness :
    (fetch_with_retries envFetchAllFail fetchStart 0 3).raised = true ∧
    (fetch_with_retries envFetchAllFail fetchStart 0 3).state.fetch_task.status =
      TaskStatus.error :=
  ⟨(fetch_final_failure_recorded_and_reraised envFetchAllFail fetchStart 0 3
      (fun _ => "FetchFailure") (fun _ => rfl) (by decide)).1,
   (fetch_final_failure_recorded_and_reraised envFetchAllFail fetchStart 0 3
      (fun _ => "FetchFailure") (fun _ => rfl) (by decide)).2.1⟩

/-- C8: with the retry bound configured to 3, if the first two download
attempts raise and the third succeeds (local backend), the fetch run ends
with final status Done, the source file's output reference set, no re-raise,
and exactly 3 invocations of the download operation. -/
theorem fetch_two_failures_then_success (env : FetchEnv) (st : FetchState) (m1 m2 : String)
    (h0 : env.attempt 0 = FetchOutcome.exc m1)
    (h1 : env.attempt 1 = FetchOutcome.exc m2)
    (h2 : env.attempt 2 = FetchOutcome.ok true)
    (hmax : env.settings.YOUTUBE_MAX_RETRIES = 3)
    (hloc : env.settings.isLocal = true) :
    (fetch_youtube_audio env st).invocations = 3 ∧
    (fetch_youtube_audio env st).raised = false ∧
    (fetch_youtube_audio env st).state.fetch_task.status = TaskStatus.done ∧
    (fetch_youtube_audio env st).state.source_file.file.isSome := by
  unfold fetch_youtube_audio
  rw [hmax, show (3 : Nat) = 1 + 2 from rfl,
    fetch_with_retries_fail_step env st 0 1 m1 h0,
    show (0 : Nat) + 1 = 1 from rfl, show (1 : Nat) + 1 = 0 + 2 from rfl,
    fetch_with_retries_fail_step env (fetch_youtube_audio_once env st 0).1 1 0 m2 h1]
  have hd := fetch_with_retries_done_step env
    (fetch_youtube_audio_once env (fetch_youtube_audio_once env st 0).1 1).1 2 0 h2 hloc
  have ho := fetch_once_ok_local env
    (fetch_youtube_audio_once env (fetch_youtube_audio_once env st 0).1 1).1 2 h2 hloc
  refine ⟨?_, ?_, ?_, ?_⟩
  · simp [hd.1]
  · simp [hd.2.1]
  · simp [hd.2.2, ho.2.1]
  · simp [hd.2.2, ho.2.2]

/-- C8 (witness): the theorem applied to the concrete two-failures-then-
success environment. -/
theorem fetch_two_failures_then_success_witness :
    (fetch_youtube_audio envFetchThirdOk fetchStart).invocations = 3 ∧
    (fetch_youtube_audio envFetchThirdOk fetchStart).state.fetch_task.status =
      TaskStatus.done :=
  ⟨(fetch_two_failures_then_success envFetchThirdOk fetchStart "FetchFailure" "FetchFailure"
      rfl rfl rfl rfl rfl).1,
   (fetch_two_failures_then_success envFetchThirdOk fetchStart "FetchFailure" "FetchFailure"
      rfl rfl rfl rfl rfl).2.2.1⟩

end SpleeterWeb

namespace SpleeterWeb

/-- C9 (evaluation at the failing input): with source-file id 1 and
fetch-task id 2, the fetch body creates the working directory
`media/uploads/1` (keyed by the source file's id) while the download
destination recorded as the output reference is `uploads/2/song.mp3`, i.e.
`media/uploads/2/song.mp3`, which lies in the distinct directory
`media/uploads/2` — the created directory and the destination disagree on
the identifier. -/
theorem fetch_workdir_and_destination_disagree :
    fetchStart.source_file.id = 1 ∧
    fetchStart.fetch_task.id = 2 ∧
    (fetch_youtube_audio_once envFetchOk fetchStart 0).1.fs.dirs =
      [fetch_created_dir cfgLocal 1] ∧
    (fetch_youtube_audio_once envFetchOk fetchStart 0).1.source_file.file =
      some (fetch_rel_media_path cfgLocal 2 "song.mp3") ∧
    fetch_created_dir cfgLocal 1 = "media/uploads/1" ∧
    osPathJoin cfgLocal.MEDIA_ROOT (fetch_rel_media_path cfgLocal 2 "song.mp3") =
      osPathJoin (fetch_dest_dir cfgLocal 2) "song.mp3" ∧
    osPathJoin (fetch_dest_dir cfgLocal 2) "song.mp3" = "media/uploads/2/song.mp3" ∧
    fetch_dest_dir cfgLocal 2 ≠ fetch_created_dir cfgLocal 1 :=
  ⟨rfl, rfl, rfl, rfl, rfl, rfl, rfl, by decide⟩

/-- C10: every failed fetch attempt — not only the final exhausted one —
persists status Error together with that attempt's error message on the
fetch job record (the wrapper's trace holds the persisted record state after
each attempt) before the body re-raises to trigger the next retry. -/
theorem fetch_attempt_persists_error (env : FetchEnv) (st : FetchState) (i0 n j : Nat)
    (stj : FetchState) (msg : String)
    (htr : (fetch_with_retries env st i0 n).trace.get? j = some stj)
    (hat : env.attempt (i0 + j) = FetchOutcome.exc msg) :
    stj.fetch_task.status = TaskStatus.error ∧ stj.fetch_task.error = some msg := by
  induction n generalizing st i0 j with
  | zero =>
    rw [fetch_with_retries.eq_def] at htr
    simp at htr
  | succ k ih =>
    rw [fetch_with_retries.eq_def] at htr
    by_cases hr : (fetch_youtube_audio_once env st i0).2 = true
    · simp only [hr, if_true] at htr
      cases k with
      | zero =>
        cases j with
        | zero =>
          simp at htr
          have he := fetch_once_exc env st i0 msg (by simpa using hat)
          rw [he] at htr
          simp at htr
          rw [← htr]
          exact ⟨rfl, rfl⟩
        | succ j2 =>
          simp at htr
      | succ k2 =>
        cases j with
        | zero =>
          simp at htr
          have he := fetch_once_exc env st i0 msg (by simpa using hat)
          rw [he] at htr
          simp at htr
          rw [← htr]
          exact ⟨rfl, rfl⟩
        | succ j2 =>
          simp only [List.get?_cons_succ] at htr
          have hat2 : env.attempt (i0 + 1 + j2) = FetchOutcome.exc msg := by
            rw [show i0 + 1 + j2 = i0 + (j2 + 1) from by omega]
            exact hat
          exact ih (fetch_youtube_audio_once env st i0).1 (i0 + 1) j2 htr hat2
    · cases j with
      | zero =>
        have he : (fetch_youtube_audio_once env st i0).2 = true := by
          rw [fetch_once_exc env st i0 msg (by simpa using hat)]
        exact absurd he hr
      | succ j2 =>
        simp only [Bool.not_eq_true] at hr
        simp only [hr] at htr
        simp at htr

/-- C10 (witness): in the all-failures run with three attempts, the trace
entry persisted after the first (non-final) attempt is the Error state
carrying that attempt's message, by the theorem applied to that entry. -/
theorem fetch_attempt_persists_error_witness :
    (fetch_with_retries envFetchAllFail fetchStart 0 3).trace.get? 0 =
      some { fetch_task := { id := 2, status := TaskStatus.error, error := some "FetchFailure", date_created := 0 }
             source_file := { id := 1, file := none }
             fs := { files := [], dirs := ["media/uploads/1"] }
             log := ["FetchFailure"] } ∧
    ({ fetch_task := { id := 2, status := TaskStatus.error, error := some "FetchFailure", date_created := 0 }
       source_file := { id := 1, file := none }
       fs := { files := [], dirs := ["media/uploads/1"] }
       log := ["FetchFailure"] } : FetchState).fetch_task.status = TaskStatus.error ∧
    ({ fetch_task := { id := 2, status := TaskStatus.error, error := some "FetchFailure", date_created := 0 }
       source_file := { id := 1, file := none }
       fs := { files := [], dirs := ["media/uploads/1"] }
       log := ["FetchFailure"] } : FetchState).fetch_task.error = some "FetchFailure" := by
  refine ⟨rfl, ?_, ?_⟩
  · exact (fetch_attempt_persists_error envFetchAllFail fetchStart 0 3 0
      { fetch_task := { id := 2, status := TaskStatus.error, error := some "FetchFailure", date_created := 0 }
        source_file := { id := 1, file := none }
        fs := { files := [], dirs := ["media/uploads/1"] }
        log := ["FetchFailure"] } "FetchFailure" rfl rfl).1
  · exact (fetch_attempt_persists_error envFetchAllFail fetchStart 0 3 0
      { fetch_task := { id := 2, status := TaskStatus.error, error := some "FetchFailure", date_created := 0 }
        source_file := { id := 1, file := none }
        fs := { files := [], dirs := ["media/uploads/1"] }
        log := ["FetchFailure"] } "FetchFailure" rfl rfl).2

end SpleeterWeb
